import Mathlib

/-!
Verification of the FIFA World Cup winners dashboard (`wc_winner.py`).

The embedding models the data pipeline and the reactive callback:

* `create_worldcup_dataset` — the hand-entered table of 22 finals, built
  column-wise and then normalized by the `West Germany → Germany` replace.
* `country_codes` — the name → ISO alpha-3 code dictionary.
* `win_counts` — the per-country win aggregate (`value_counts` plus code
  resolution; entries ordered by descending win count as pandas does).
* `update_dashboard` — the Dash callback, modelled as a pure function from
  the two optional selector values to the figure and the two info panels.
  Python truthiness of the selector values (`if selected_country:`) is
  modelled explicitly: `None` and the empty string / zero are falsy.

The two `Winner_Code` / `Runner-up_Code` columns added to the dataframe at
module load are never read by the callback or by any claim, so they are not
carried in the record type; code resolution is modelled where it is used
(`win_counts` and the mapping itself).
-/

/-- One row of the tournament table: year, winner, runner-up, score. -/
structure TRecord where
  year : Nat
  winner : String
  runnerUp : String
  score : String
deriving DecidableEq

/-- The `Year` column literal from `create_worldcup_dataset`. -/
def yearsCol : List Nat :=
  [1930, 1934, 1938, 1950, 1954, 1958, 1962, 1966, 1970, 1974,
   1978, 1982, 1986, 1990, 1994, 1998, 2002, 2006, 2010, 2014, 2018, 2022]

/-- The `Winner` column literal from `create_worldcup_dataset`. -/
def winnersCol : List String :=
  ["Uruguay", "Italy", "Italy", "Uruguay", "West Germany", "Brazil",
   "Brazil", "England", "Brazil", "West Germany", "Argentina",
   "Italy", "Argentina", "West Germany", "Brazil", "France",
   "Brazil", "Italy", "Spain", "Germany", "France", "Argentina"]

/-- The `Runner-up` column literal from `create_worldcup_dataset`. -/
def runnersUpCol : List String :=
  ["Argentina", "Czechoslovakia", "Hungary", "Brazil", "Hungary",
   "Sweden", "Czechoslovakia", "West Germany", "Italy",
   "Netherlands", "Netherlands", "West Germany", "West Germany",
   "Argentina", "Italy", "Brazil", "Germany", "France",
   "Netherlands", "Argentina", "Croatia", "France"]

/-- The `Score` column literal from `create_worldcup_dataset`. -/
def scoresCol : List String :=
  ["4-2", "2-1 (a.e.t.)", "4-2", "2-1", "3-2", "5-2", "3-1", "4-2 (a.e.t.)",
   "4-1", "2-1", "3-1 (a.e.t.)", "3-1", "3-2", "1-0", "0-0 (a.e.t.) (3-2 p.)",
   "3-0", "2-0", "1-1 (a.e.t.) (5-3 p.)", "1-0 (a.e.t.)", "1-0 (a.e.t.)",
   "4-2", "3-3 (a.e.t.) (4-2 p.)"]

/-- The raw dataframe before the replace step: the four columns zipped
row-wise. -/
def rawRecords : List TRecord :=
  (yearsCol.zip (winnersCol.zip (runnersUpCol.zip scoresCol))).map
    (fun p => { year := p.1, winner := p.2.1, runnerUp := p.2.2.1, score := p.2.2.2 })

/-- The cell-level effect of `df.replace({'West Germany': 'Germany'})`:
a string cell equal to `"West Germany"` becomes `"Germany"`, every other
cell is unchanged (pandas `replace` with a scalar dict matches whole cell
values, not substrings). -/
def replaceWestGermany (s : String) : String :=
  if s = "West Germany" then "Germany" else s

/-- `create_worldcup_dataset`: build the table and apply the replace to
every string cell of every row (the `Year` column is integer-typed, so the
replace cannot touch it). -/
def create_worldcup_dataset : List TRecord :=
  rawRecords.map (fun r =>
    { year := r.year
      winner := replaceWestGermany r.winner
      runnerUp := replaceWestGermany r.runnerUp
      score := replaceWestGermany r.score })

/-- The module-level `worldcup_df`. -/
def worldcup_df : List TRecord := create_worldcup_dataset

/-- The `country_codes` dictionary (name, ISO alpha-3 code). -/
def country_codes : List (String × String) :=
  [("Argentina", "ARG"),
   ("Brazil", "BRA"),
   ("England", "GBR"),
   ("France", "FRA"),
   ("Germany", "DEU"),
   ("Italy", "ITA"),
   ("Spain", "ESP"),
   ("Uruguay", "URY"),
   ("Czechoslovakia", "CZE"),
   ("Hungary", "HUN"),
   ("Sweden", "SWE"),
   ("Netherlands", "NLD"),
   ("Croatia", "HRV")]

/-- Dictionary lookup, `Series.map(dict)` style: a missing key yields an
absent value (pandas `NaN`), modelled as `none`. -/
def lookupCode (codes : List (String × String)) (c : String) : Option String :=
  (codes.find? (fun p => p.1 == c)).map (fun p => p.2)

/-- One row of the `win_counts` dataframe: country, number of wins, and the
resolved (possibly absent) code. -/
structure WinCount where
  country : String
  wins : Nat
  code : Option String
deriving DecidableEq

/-- Number of records of `df` whose winner is `c` (one cell of
`value_counts`). -/
def countWins (df : List TRecord) (c : String) : Nat :=
  (df.filter (fun r => r.winner == c)).length

/-- The `win_counts` construction from a dataset and a code mapping:
`value_counts` produces one row per distinct winner with its occurrence
count, ordered by descending count, and the `Code` column is resolved via
the mapping. -/
def winCountsOf (codes : List (String × String)) (df : List TRecord) : List WinCount :=
  List.insertionSort (fun a b => b.wins ≤ a.wins)
    (((df.map (fun r => r.winner)).dedup).map
      (fun c => { country := c, wins := countWins df c, code := lookupCode codes c }))

/-- The module-level `win_counts`. -/
def win_counts : List WinCount := winCountsOf country_codes worldcup_df

/-- The highlight trace added by `fig.add_trace(go.Choropleth(...))`: its
locations are the `Code` cells of the selected rows (possibly unresolved)
and its `z` values their win counts. -/
structure Overlay where
  locations : List (Option String)
  z : List Nat
deriving DecidableEq

/-- The choropleth figure: the base layer drawn from `win_counts`, plus the
optional highlight trace. -/
structure MapFig where
  base : List WinCount
  overlay : Option Overlay
deriving DecidableEq

/-- The `country-info` panel contents: heading country, total wins, and the
sorted list of winning years (the code renders these as the three text
lines of an `html.Div`). -/
structure CountryPanel where
  country : String
  totalWins : Nat
  years : List Nat
deriving DecidableEq

/-- The three text lines the callback renders for the country panel. -/
def countryPanelLines (p : CountryPanel) : List String :=
  [p.country ++ " World Cup Wins",
   "Total Wins: " ++ toString p.totalWins,
   "Years Won: " ++ String.intercalate ", " (p.years.map toString)]

/-- The `year-info` panel contents. -/
structure YearPanel where
  year : Nat
  winner : String
  runnerUp : String
  score : String
deriving DecidableEq

/-- The four text lines the callback renders for the year panel. -/
def yearPanelLines (p : YearPanel) : List String :=
  [toString p.year ++ " World Cup Final",
   "Winner: " ++ p.winner,
   "Runner-up: " ++ p.runnerUp,
   "Score: " ++ p.score]

/-- The callback return value `(fig, country_output, year_output)`; the
Python empty string sentinel for an unrendered panel is modelled as
`none`. -/
structure DashOutput where
  fig : MapFig
  countryInfo : Option CountryPanel
  yearInfo : Option YearPanel
deriving DecidableEq

/-- Python truthiness of the country selector: `None` and `""` are falsy. -/
def truthyCountry : Option String → Bool
  | none => false
  | some s => !(s == "")

/-- Python truthiness of the year selector: `None` and `0` are falsy. -/
def truthyYear : Option Nat → Bool
  | none => false
  | some n => !(n == 0)

/-- The body of `update_dashboard`, parameterized by the dataframe and the
aggregate it reads (module-level globals in the source):
base choropleth from `wc`; highlight trace added when the selected country
has a row in `wc`; country panel from the matching rows of `df`, years
sorted ascending; year panel from the first row of `df` matching the
selected year. -/
def update_dashboardOn (df : List TRecord) (wc : List WinCount)
    (selected_country : Option String) (selected_year : Option Nat) : DashOutput :=
  let overlay : Option Overlay :=
    if truthyCountry selected_country then
      let c := selected_country.getD ""
      let country_data := wc.filter (fun w => w.country == c)
      if country_data.isEmpty then none
      else some { locations := country_data.map (fun w => w.code)
                  z := country_data.map (fun w => w.wins) }
    else none
  let country_output : Option CountryPanel :=
    if truthyCountry selected_country then
      let c := selected_country.getD ""
      let wins := df.filter (fun r => r.winner == c)
      if wins.isEmpty then none
      else some { country := c
                  totalWins := wins.length
                  years := List.insertionSort (fun a b => a ≤ b) (wins.map (fun r => r.year)) }
    else none
  let year_output : Option YearPanel :=
    if truthyYear selected_year then
      let y := selected_year.getD 0
      match df.filter (fun r => r.year == y) with
      | [] => none
      | r :: _ => some { year := y, winner := r.winner, runnerUp := r.runnerUp, score := r.score }
    else none
  { fig := { base := wc, overlay := overlay }
    countryInfo := country_output
    yearInfo := year_output }

/-- `update_dashboard` as registered: the callback over the module-level
`worldcup_df` and `win_counts`. -/
def update_dashboard (selected_country : Option String) (selected_year : Option Nat) :
    DashOutput :=
  update_dashboardOn worldcup_df win_counts selected_country selected_year

/-- C9: rendering with neither selector set yields a figure whose only
content is the base aggregate layer (no highlight overlay) and both info
panels empty. -/
theorem claim_C9 :
    (update_dashboard none none).fig.base = win_counts ∧
    (update_dashboard none none).fig.overlay = none ∧
    (update_dashboard none none).countryInfo = none ∧
    (update_dashboard none none).yearInfo = none :=
  ⟨rfl, rfl, rfl, rfl⟩

/-- C10: the two selectors do not interfere: the year panel depends only on
the year selector, and the country panel and the whole figure (base layer
and highlight overlay) depend only on the country selector. -/
theorem claim_C10 (sc sc' : Option String) (sy sy' : Option Nat) :
    (update_dashboard sc sy).yearInfo = (update_dashboard sc' sy).yearInfo ∧
    (update_dashboard sc sy).countryInfo = (update_dashboard sc sy').countryInfo ∧
    (update_dashboard sc sy).fig = (update_dashboard sc sy').fig :=
  ⟨rfl, rfl, rfl⟩

/-- C8: the concrete scenarios: Brazil gives total wins 5 with years 1958,
1962, 1970, 1994, 2002 (and exactly the quoted panel text); year 2022 gives
Argentina over France, score "3-3 (a.e.t.) (4-2 p.)"; year 1990 gives
winner "Germany" after the West Germany merge. -/
theorem claim_C8 :
    (update_dashboard (some "Brazil") none).countryInfo =
      some { country := "Brazil", totalWins := 5, years := [1958, 1962, 1970, 1994, 2002] } ∧
    ((update_dashboard (some "Brazil") none).countryInfo.map countryPanelLines) =
      some ["Brazil World Cup Wins", "Total Wins: 5",
            "Years Won: 1958, 1962, 1970, 1994, 2002"] ∧
    (update_dashboard none (some 2022)).yearInfo =
      some { year := 2022, winner := "Argentina", runnerUp := "France",
             score := "3-3 (a.e.t.) (4-2 p.)" } ∧
    ((update_dashboard none (some 1990)).yearInfo.map (fun p => p.winner)) =
      some "Germany" := by
  refine ⟨by decide, ?_, by decide, by decide⟩
  decide

/-- C2: for every record of the dataset, selecting its year renders a year
panel holding verbatim the winner, runner-up and score strings stored in
that record. -/
theorem claim_C2 (r : TRecord) (hr : r ∈ worldcup_df) :
    (update_dashboard none (some r.year)).yearInfo =
      some { year := r.year, winner := r.winner, runnerUp := r.runnerUp, score := r.score } := by
  revert r
  decide

/-- C2 witness: the theorem applied to the 2018 record. -/
theorem claim_C2_witness :
    ({ year := 2018, winner := "France", runnerUp := "Croatia", score := "4-2" } : TRecord)
        ∈ worldcup_df ∧
    (update_dashboard none (some 2018)).yearInfo =
      some { year := 2018, winner := "France", runnerUp := "Croatia", score := "4-2" } :=
  ⟨by decide,
   claim_C2 { year := 2018, winner := "France", runnerUp := "Croatia", score := "4-2" }
     (by decide)⟩

/-- C3: `win_counts` has one row per distinct winner (no duplicate country,
and its countries are exactly the winners of the table), and the win counts
sum to the number of records, which is 22. -/
theorem claim_C3 :
    (win_counts.map (fun w => w.country)).Nodup ∧
    (∀ r ∈ worldcup_df, r.winner ∈ win_counts.map (fun w => w.country)) ∧
    (∀ w ∈ win_counts, w.country ∈ worldcup_df.map (fun r => r.winner)) ∧
    (win_counts.map (fun w => w.wins)).sum = worldcup_df.length ∧
    worldcup_df.length = 22 := by
  decide

/-- C6: the code mapping covers exactly the winner and runner-up names of
the post-merge dataset: every such name resolves to a 3-letter code, and
every key of the mapping occurs as a winner or runner-up. -/
theorem claim_C6 :
    (∀ r ∈ worldcup_df,
      (∃ k, lookupCode country_codes r.winner = some k ∧ k.length = 3) ∧
      (∃ k, lookupCode country_codes r.runnerUp = some k ∧ k.length = 3)) ∧
    (∀ p ∈ country_codes,
      p.1 ∈ worldcup_df.map (fun r => r.winner) ∨
      p.1 ∈ worldcup_df.map (fun r => r.runnerUp)) := by
  decide

/-- C7: after construction no winner or runner-up cell reads
"West Germany"; row by row, the year and score are unchanged and each name
cell is either unchanged or was "West Germany" and is now "Germany". -/
theorem claim_C7 :
    (∀ r ∈ worldcup_df, r.winner ≠ "West Germany" ∧ r.runnerUp ≠ "West Germany") ∧
    worldcup_df.length = rawRecords.length ∧
    (∀ p ∈ rawRecords.zip worldcup_df,
      p.2.year = p.1.year ∧
      p.2.score = p.1.score ∧
      (p.2.winner = p.1.winner ∨ (p.1.winner = "West Germany" ∧ p.2.winner = "Germany")) ∧
      (p.2.runnerUp = p.1.runnerUp ∨
        (p.1.runnerUp = "West Germany" ∧ p.2.runnerUp = "Germany"))) := by
  decide

/-- C1: for any insertion order of the dataset (any permutation of the
shipped table) and any country with at least one win, the rendered country
panel shows exactly that win count, and its list of winning years is sorted
ascending with length equal to the win count. -/
theorem claim_C1 (df : List TRecord) (hperm : df.Perm worldcup_df) (c : String)
    (hc : 0 < countWins df c) :
    ∃ p : CountryPanel,
      (update_dashboardOn df (winCountsOf country_codes df) (some c) none).countryInfo
        = some p ∧
      p.totalWins = countWins df c ∧
      p.years.Sorted (fun a b => a ≤ b) ∧
      p.years.length = countWins df c := by
  have hcount : countWins df c = countWins worldcup_df c := by
    unfold countWins
    exact (hperm.filter (fun r => r.winner == c)).length_eq
  have hne : c ≠ "" := by
    intro h
    subst h
    rw [hcount] at hc
    exact absurd hc (by decide)
  have htruthy : truthyCountry (some c) = true := by
    simp [truthyCountry, hne]
  have hfilne : df.filter (fun r => r.winner == c) ≠ [] := by
    intro h
    rw [countWins, h] at hc
    exact Nat.lt_irrefl 0 hc
  have hfe : (df.filter (fun r => r.winner == c)).isEmpty = false := by
    simpa [List.isEmpty_iff] using hfilne
  refine ⟨{ country := c,
            totalWins := (df.filter (fun r => r.winner == c)).length,
            years := List.insertionSort (fun a b => a ≤ b)
              ((df.filter (fun r => r.winner == c)).map (fun r => r.year)) }, ?_, rfl, ?_, ?_⟩
  · simp only [update_dashboardOn, htruthy, if_true, Option.getD_some, hfe,
      Bool.false_eq_true, if_false]
  · exact List.sorted_insertionSort _ _
  · rw [List.length_insertionSort, List.length_map]
    rfl

/-- C1 witness: the theorem at the shipped insertion order and country
"Brazil". -/
theorem claim_C1_witness :
    worldcup_df.Perm worldcup_df ∧ 0 < countWins worldcup_df "Brazil" ∧
    ∃ p : CountryPanel,
      (update_dashboardOn worldcup_df (winCountsOf country_codes worldcup_df)
          (some "Brazil") none).countryInfo = some p ∧
      p.totalWins = countWins worldcup_df "Brazil" ∧
      p.years.Sorted (fun a b => a ≤ b) ∧
      p.years.length = countWins worldcup_df "Brazil" :=
  ⟨List.Perm.refl worldcup_df, by decide,
   claim_C1 worldcup_df (List.Perm.refl worldcup_df) "Brazil" (by decide)⟩

/-- C5: every render is a total computation (the callback is a function into
`DashOutput`, so no input can raise); a selected country with no matching
record leaves the country panel empty, and a selected year not present in
the table leaves the year panel empty. -/
theorem claim_C5 (sc : Option String) (sy : Option Nat) :
    (∀ c, sc = some c → countWins worldcup_df c = 0 →
      (update_dashboard sc sy).countryInfo = none) ∧
    (∀ y, sy = some y → y ∉ worldcup_df.map (fun r => r.year) →
      (update_dashboard sc sy).yearInfo = none) := by
  constructor
  · intro c hsc hcw
    subst hsc
    have hf : worldcup_df.filter (fun r => r.winner == c) = [] :=
      List.length_eq_zero.mp hcw
    by_cases ht : truthyCountry (some c) = true
    · simp [update_dashboard, update_dashboardOn, ht, hf]
    · simp [update_dashboard, update_dashboardOn, ht]
  · intro y hsy hy
    subst hsy
    have hf : worldcup_df.filter (fun r => r.year == y) = [] := by
      rw [List.filter_eq_nil_iff]
      intro r hr hry
      exact hy (List.mem_map.mpr ⟨r, hr, by simpa using hry⟩)
    by_cases ht : truthyYear (some y) = true
    · simp [update_dashboard, update_dashboardOn, ht, hf]
    · simp [update_dashboard, update_dashboardOn, ht]

/-- C5 witness: the theorem at a country and a year that are absent from
the dataset. -/
theorem claim_C5_witness :
    countWins worldcup_df "Narnia" = 0 ∧
    (1931 ∉ worldcup_df.map (fun r => r.year)) ∧
    (update_dashboard (some "Narnia") (some 1931)).countryInfo = none ∧
    (update_dashboard (some "Narnia") (some 1931)).yearInfo = none :=
  ⟨by decide, by decide,
   (claim_C5 (some "Narnia") (some 1931)).1 "Narnia" rfl (by decide),
   (claim_C5 (some "Narnia") (some 1931)).2 1931 rfl (by decide)⟩

/-- The shipped mapping with the Brazil entry removed, simulating an
unresolvable code for a winning country. -/
def codesNoBrazil : List (String × String) :=
  country_codes.filter (fun p => !(p.1 == "Brazil"))

/-- C4 counterexample: with the Brazil entry removed from the mapping,
Brazil has no resolvable code yet selecting Brazil still adds a highlight
overlay trace to the figure, so the overlay decision does not depend on
code resolvability. -/
theorem claim_C4_cex :
    lookupCode codesNoBrazil "Brazil" = none ∧
    0 < countWins worldcup_df "Brazil" ∧
    (update_dashboardOn worldcup_df (winCountsOf codesNoBrazil worldcup_df)
        (some "Brazil") none).fig.overlay ≠ none := by
  decide

/-- C4 (amended): for any code mapping under which the selected country is
unresolvable, selecting a country with at least one win still adds a
highlight overlay trace, but the trace carries no resolvable location (so
no region is highlighted); the country panel is non-empty and is identical
whatever aggregate (hence whatever code mapping) the callback reads. -/
theorem claim_C4 (m : List (String × String)) (c : String)
    (hwin : 0 < countWins worldcup_df c) (hcode : lookupCode m c = none) :
    (∃ o : Overlay,
      (update_dashboardOn worldcup_df (winCountsOf m worldcup_df)
          (some c) none).fig.overlay = some o ∧
      o.locations.filterMap id = []) ∧
    (update_dashboardOn worldcup_df (winCountsOf m worldcup_df)
        (some c) none).countryInfo ≠ none ∧
    (∀ wc wc' : List WinCount,
      (update_dashboardOn worldcup_df wc (some c) none).countryInfo =
      (update_dashboardOn worldcup_df wc' (some c) none).countryInfo) := by
  have hne : c ≠ "" := by
    intro h
    subst h
    exact absurd hwin (by decide)
  have htruthy : truthyCountry (some c) = true := by
    simp [truthyCountry, hne]
  have hcmem : c ∈ worldcup_df.map (fun r => r.winner) := by
    obtain ⟨r, hr⟩ := List.exists_mem_of_length_pos hwin
    obtain ⟨hrdf, hrc⟩ := List.mem_filter.mp hr
    exact List.mem_map.mpr ⟨r, hrdf, by simpa using hrc⟩
  have hrow : ({ country := c, wins := countWins worldcup_df c,
                 code := lookupCode m c } : WinCount) ∈ winCountsOf m worldcup_df := by
    unfold winCountsOf
    exact (List.mem_insertionSort _).mpr
      (List.mem_map.mpr ⟨c, List.mem_dedup.mpr hcmem, rfl⟩)
  have hrowcd : ({ country := c, wins := countWins worldcup_df c,
                   code := lookupCode m c } : WinCount) ∈
      (winCountsOf m worldcup_df).filter (fun w => w.country == c) :=
    List.mem_filter.mpr ⟨hrow, by simp⟩
  have hcdne : (winCountsOf m worldcup_df).filter (fun w => w.country == c) ≠ [] :=
    List.ne_nil_of_mem hrowcd
  have hcdfe : ((winCountsOf m worldcup_df).filter (fun w => w.country == c)).isEmpty
      = false := by
    simpa [List.isEmpty_iff] using hcdne
  have hcodes : ∀ w ∈ (winCountsOf m worldcup_df).filter (fun w => w.country == c),
      w.code = none := by
    intro w hw
    obtain ⟨hwm, hwc⟩ := List.mem_filter.mp hw
    unfold winCountsOf at hwm
    obtain ⟨c', _, hc'⟩ := List.mem_map.mp ((List.mem_insertionSort _).mp hwm)
    have hcc : c' = c := by
      rw [← hc'] at hwc
      simpa using hwc
    rw [← hc', hcc]
    exact hcode
  have hwinsfe : (worldcup_df.filter (fun r => r.winner == c)).isEmpty = false := by
    have : worldcup_df.filter (fun r => r.winner == c) ≠ [] := by
      intro h
      rw [countWins, h] at hwin
      exact Nat.lt_irrefl 0 hwin
    simpa [List.isEmpty_iff] using this
  refine ⟨⟨{ locations := ((winCountsOf m worldcup_df).filter
               (fun w => w.country == c)).map (fun w => w.code),
             z := ((winCountsOf m worldcup_df).filter
               (fun w => w.country == c)).map (fun w => w.wins) }, ?_, ?_⟩, ?_, ?_⟩
  · simp only [update_dashboardOn, htruthy, if_true, Option.getD_some, hcdfe,
      Bool.false_eq_true, if_false]
  · rw [List.filterMap_eq_nil_iff]
    intro a ha
    obtain ⟨w, hw, hwa⟩ := List.mem_map.mp ha
    rw [← hwa]
    exact hcodes w hw
  · simp only [update_dashboardOn, htruthy, if_true, Option.getD_some, hwinsfe,
      Bool.false_eq_true, if_false]
    exact Option.some_ne_none _
  · intro wc wc'
    rfl

/-- C4 witness: the amended theorem at the mapping with Brazil removed. -/
theorem claim_C4_witness :
    0 < countWins worldcup_df "Brazil" ∧
    lookupCode codesNoBrazil "Brazil" = none ∧
    ((∃ o : Overlay,
      (update_dashboardOn worldcup_df (winCountsOf codesNoBrazil worldcup_df)
          (some "Brazil") none).fig.overlay = some o ∧
      o.locations.filterMap id = []) ∧
    (update_dashboardOn worldcup_df (winCountsOf codesNoBrazil worldcup_df)
        (some "Brazil") none).countryInfo ≠ none ∧
    (∀ wc wc' : List WinCount,
      (update_dashboardOn worldcup_df wc (some "Brazil") none).countryInfo =
      (update_dashboardOn worldcup_df wc' (some "Brazil") none).countryInfo)) :=
  ⟨by decide, by decide, claim_C4 codesNoBrazil "Brazil" (by decide) (by decide)⟩
